import Mathlib

/-!
# Verification of the aumai-error-taxonomy core

A shallow embedding of `src/aumai_error_taxonomy/models.py` and
`src/aumai_error_taxonomy/core.py`: the error-definition data model, the
code→definition registry, the ordered exception classifier, and the two
response/wrapper helpers, together with proofs of the specified properties.

Python dicts are embedded as association lists with Python's dict semantics
(inserting an existing key replaces the value in place, a new key is appended;
iteration follows insertion order).  Python's exception `isinstance` checks are
embedded by characterising an exception value by the set of built-in exception
classes it is an instance of (its type's method-resolution order), which also
covers user-defined multiple-inheritance exception classes.  Fallible Python
code (raising) is embedded with `Except`.  The wall clock used by
`create_error_response` is passed explicitly as a `UTCDateTime` argument.
-/

set_option autoImplicit false

namespace AumaiErrorTaxonomy

/-! ## models.py — data model -/

/-- `ErrorCategory` (models.py): closed set of six tags aligned to numeric
ranges (1xx model, 2xx tool, 3xx security, 4xx resource, 5xx orchestration,
6xx data). -/
inductive ErrorCategory where
  | model
  | tool
  | security
  | resource
  | orchestration
  | data
deriving DecidableEq

/-- The string payload of each `ErrorCategory` member (it is a `str` enum). -/
def ErrorCategory.value : ErrorCategory → String
  | .model => "model"
  | .tool => "tool"
  | .security => "security"
  | .resource => "resource"
  | .orchestration => "orchestration"
  | .data => "data"

/-- `AgentError` (models.py): a single validated error definition. -/
structure AgentError where
  code : Int
  category : ErrorCategory
  name : String
  description : String
  retryable : Bool
  severity : String
deriving DecidableEq

/-- The closed set of severities accepted by the `severity` field validator. -/
def allowedSeverities : List String := ["critical", "high", "medium", "low"]

/-- `AgentError.model_validate`: pydantic construction with the two field
validators of models.py.  Fields are validated in declaration order, so the
`code` check runs before the `severity` check; any failure raises (here:
returns `.error`) and no fixed-up value is produced. -/
def AgentError.model_validate (code : Int) (category : ErrorCategory)
    (name description : String) (retryable : Bool) (severity : String) :
    Except String AgentError :=
  if code ≤ 0 then
    .error ("code must be a positive integer, got " ++ toString code)
  else if ¬ (severity ∈ allowedSeverities) then
    .error ("severity must be one of the allowed levels, got " ++ severity)
  else
    .ok { code := code, category := category, name := name,
          description := description, retryable := retryable,
          severity := severity }

/-! ### Python dict embedding

`dictInsert`/`dictGet`/`dictValues`/`dictKeys` embed the `dict[int, AgentError]`
operations used by models.py and core.py, preserving Python's semantics:
insertion of an existing key replaces its value in place (keeping its
position), a new key is appended at the end, and iteration over values/keys
follows this insertion order. -/

def dictInsert (m : List (Int × AgentError)) (k : Int) (v : AgentError) :
    List (Int × AgentError) :=
  match m with
  | [] => [(k, v)]
  | (k', v') :: rest =>
      if k' = k then (k, v) :: rest else (k', v') :: dictInsert rest k v

def dictGet (m : List (Int × AgentError)) (k : Int) : Option AgentError :=
  match m with
  | [] => none
  | (k', v) :: rest => if k' = k then some v else dictGet rest k

def dictValues (m : List (Int × AgentError)) : List AgentError :=
  m.map Prod.snd

def dictKeys (m : List (Int × AgentError)) : List Int :=
  m.map Prod.fst

/-- `ErrorRegistry` (models.py): container mapping numeric codes to
`AgentError` definitions. -/
structure ErrorRegistry where
  errors : List (Int × AgentError)
deriving DecidableEq

/-- `ErrorRegistry.register`: add or replace an error in the registry
(keyed by `error.code`). -/
def ErrorRegistry.register (r : ErrorRegistry) (error : AgentError) :
    ErrorRegistry :=
  ⟨dictInsert r.errors error.code error⟩

/-- `ErrorRegistry.get`: the `AgentError` for `code`, or `none` if absent. -/
def ErrorRegistry.get (r : ErrorRegistry) (code : Int) : Option AgentError :=
  dictGet r.errors code

/-- `ErrorRegistry.by_category`: all errors belonging to `category`, in the
dict's (insertion) order — models.py does not sort this listing. -/
def ErrorRegistry.by_category (r : ErrorRegistry) (category : ErrorCategory) :
    List AgentError :=
  (dictValues r.errors).filter (fun e => e.category = category)

/-! ## core.py — raw table and registry build -/

/-- A raw entry of `_RAW_ERRORS` (a Python dict literal with the six
`AgentError` fields, still unvalidated). -/
structure RawError where
  code : Int
  category : ErrorCategory
  name : String
  description : String
  retryable : Bool
  severity : String

/-- `_RAW_ERRORS` (core.py): the literal raw definition table, in source
order, including the literal duplicate entry for code 105 in the
"Additional entries" block. -/
def _RAW_ERRORS : List RawError := [
  -- 1xx — Model errors
  ⟨101, .model, "model_not_found",
   "The requested model identifier does not exist or is unavailable.",
   false, "high"⟩,
  ⟨102, .model, "model_context_overflow",
   "The input exceeds the model's maximum context window.",
   false, "medium"⟩,
  ⟨103, .model, "model_timeout",
   "The model did not respond within the allowed time limit.",
   true, "high"⟩,
  ⟨104, .model, "model_rate_limit",
   "The model provider has rate-limited the current API key or account.",
   true, "medium"⟩,
  ⟨105, .model, "model_output_parse_error",
   "The model response could not be parsed into the expected structured format.",
   true, "medium"⟩,
  -- 2xx — Tool errors
  ⟨201, .tool, "tool_not_found",
   "The agent called a tool that is not registered or available.",
   false, "high"⟩,
  ⟨202, .tool, "tool_invocation_error",
   "The tool raised an unhandled exception during execution.",
   true, "high"⟩,
  ⟨203, .tool, "tool_input_validation_error",
   "The arguments supplied to the tool failed schema validation.",
   false, "medium"⟩,
  ⟨204, .tool, "tool_timeout",
   "The tool did not complete within the configured deadline.",
   true, "high"⟩,
  ⟨205, .tool, "tool_output_schema_mismatch",
   "The tool returned output that does not match its declared schema.",
   false, "medium"⟩,
  -- 3xx — Security errors
  ⟨301, .security, "auth_failed",
   "Authentication credentials are missing, invalid, or expired.",
   false, "critical"⟩,
  ⟨302, .security, "permission_denied",
   "The agent lacks the required permissions to perform the action.",
   false, "critical"⟩,
  ⟨303, .security, "policy_violation",
   "The requested action violates a configured security policy.",
   false, "critical"⟩,
  ⟨304, .security, "injection_detected",
   "A prompt or command injection attempt was detected and blocked.",
   false, "critical"⟩,
  ⟨305, .security, "sandbox_escape_attempt",
   "The agent attempted an action outside its permitted sandbox boundary.",
   false, "critical"⟩,
  -- 4xx — Resource errors
  ⟨401, .resource, "resource_exhausted",
   "A system resource (memory, CPU, file descriptors) has been exhausted.",
   true, "high"⟩,
  ⟨402, .resource, "budget_exceeded",
   "The operation exceeded the allocated cost or token budget.",
   false, "high"⟩,
  ⟨403, .resource, "storage_quota_exceeded",
   "The agent's persistent storage quota has been exceeded.",
   false, "medium"⟩,
  ⟨404, .resource, "network_unreachable",
   "The target network endpoint is not reachable from the agent's environment.",
   true, "high"⟩,
  -- 5xx — Orchestration errors
  ⟨501, .orchestration, "max_iterations_exceeded",
   "The agent exceeded the maximum allowed reasoning or action loop iterations.",
   false, "high"⟩,
  ⟨502, .orchestration, "plan_parse_error",
   "The agent's plan or task decomposition could not be parsed.",
   true, "medium"⟩,
  ⟨503, .orchestration, "dependency_cycle_detected",
   "A circular dependency was found in the agent's task graph.",
   false, "high"⟩,
  ⟨504, .orchestration, "handoff_failed",
   "An attempt to hand off control to another agent or process failed.",
   true, "high"⟩,
  -- 6xx — Data errors
  ⟨601, .data, "data_schema_violation",
   "Input or output data does not conform to the expected schema.",
   false, "medium"⟩,
  ⟨602, .data, "data_not_found",
   "A required data record or artifact could not be located.",
   false, "medium"⟩,
  ⟨603, .data, "data_corruption",
   "A data artifact is present but its contents are malformed or corrupted.",
   false, "high"⟩,
  ⟨604, .data, "pii_detected",
   "Personally identifiable information was found in a context where it is forbidden.",
   false, "critical"⟩,
  -- Additional entries to reach 30 total (sic — the comment in the source)
  ⟨105, .model, "model_output_parse_error",
   "The model response could not be parsed into the expected structured format.",
   true, "medium"⟩,
  ⟨405, .resource, "disk_write_error",
   "A write operation to the filesystem failed due to permission or space issues.",
   true, "high"⟩,
  ⟨406, .resource, "connection_pool_exhausted",
   "All connections in the pool are in use; the request cannot be served.",
   true, "high"⟩,
  ⟨605, .data, "encoding_error",
   "A data encoding or decoding error occurred (e.g. invalid UTF-8 sequence).",
   false, "medium"⟩,
  ⟨606, .data, "missing_required_field",
   "A required field is absent from the supplied data payload.",
   false, "medium"⟩]

/-- `_build_registry` (core.py): validate each raw entry in order and insert
it keyed by its code; a validation failure would propagate (`.error`). -/
def _build_registry : Except String (List (Int × AgentError)) :=
  _RAW_ERRORS.foldlM
    (fun registry raw => do
      let err ← AgentError.model_validate raw.code raw.category raw.name
        raw.description raw.retryable raw.severity
      pure (dictInsert registry err.code err))
    []

/-- `ERROR_REGISTRY` (core.py): the successfully built registry (the build of
the literal table succeeds; see `build_registry_ok`). -/
def ERROR_REGISTRY : List (Int × AgentError) :=
  match _build_registry with
  | .ok registry => registry
  | .error _ => []

/-- Building the literal table validates every entry, so the registry build
succeeds and `ERROR_REGISTRY` is its result. -/
theorem build_registry_ok : _build_registry = .ok ERROR_REGISTRY := by
  rfl

/-! ## core.py — public API -/

/-- `UnknownErrorCode` (core.py): raised when a code is not present in the
registry (a `KeyError` subclass carrying a message). -/
structure UnknownErrorCode where
  msg : String
deriving DecidableEq

/-- `lookup_error` (core.py): the `AgentError` for `code`; raises
`UnknownErrorCode` (here: returns `.error`) when the code is not registered.
The function reads the registry and never mutates it. -/
def lookup_error (code : Int) : Except UnknownErrorCode AgentError :=
  match dictGet ERROR_REGISTRY code with
  | some error => .ok error
  | none => .error ⟨"No error registered for code " ++ toString code⟩

/-- The sort-by-code relation used by `errors_by_category`
(`key=lambda e: e.code`). -/
def byCodeLE (a b : AgentError) : Prop := a.code ≤ b.code

instance : DecidableRel byCodeLE := fun a b => Int.decLe a.code b.code

/-- `errors_by_category` (core.py): all errors of the built-in registry
belonging to `category`, sorted by code.  Python's `sorted` is a stable sort
on the key; a stable sort's output is uniquely determined by the input and
the (total, transitive) key order, so the stable `List.insertionSort` is an
extensionally equal embedding of it. -/
def errors_by_category (category : ErrorCategory) : List AgentError :=
  List.insertionSort byCodeLE
    ((dictValues ERROR_REGISTRY).filter (fun e => e.category = category))

/-! ## core.py — exception classifier

The classifier only performs `isinstance` checks against built-in exception
classes, so an exception value is embedded as the set of built-in classes it
is an instance of (for a built-in exception of class `T` this is `T`'s
method-resolution order; a user-defined class contributes the union of its
bases' MROs). -/

/-- The built-in Python exception classes relevant to the classifier (the
sixteen classes of the rule table, their ancestors, and a few unrelated
classes used to exercise the fallback). -/
inductive PyType where
  | BaseException
  | Exception
  | OSError
  | ConnectionError
  | ConnectionRefusedError
  | ConnectionResetError
  | TimeoutError
  | URLError
  | PermissionError
  | FileNotFoundError
  | MemoryError
  | RuntimeError
  | RecursionError
  | ValueError
  | UnicodeError
  | UnicodeDecodeError
  | UnicodeEncodeError
  | LookupError
  | KeyError
  | TypeError
  | StopIteration
deriving DecidableEq

/-- The method-resolution order (linearised class ancestry) of each embedded
built-in exception class, as in CPython ≥ 3.10: `TimeoutError` and
`ConnectionError` (and its refused/reset subclasses) live under `OSError`;
`urllib.error.URLError` subclasses `OSError`; the unicode errors live under
`UnicodeError < ValueError`; `KeyError < LookupError`;
`RecursionError < RuntimeError`. -/
def PyType.mro : PyType → List PyType
  | .BaseException => [.BaseException]
  | .Exception => [.Exception, .BaseException]
  | .OSError => [.OSError, .Exception, .BaseException]
  | .ConnectionError => [.ConnectionError, .OSError, .Exception, .BaseException]
  | .ConnectionRefusedError =>
      [.ConnectionRefusedError, .ConnectionError, .OSError, .Exception, .BaseException]
  | .ConnectionResetError =>
      [.ConnectionResetError, .ConnectionError, .OSError, .Exception, .BaseException]
  | .TimeoutError => [.TimeoutError, .OSError, .Exception, .BaseException]
  | .URLError => [.URLError, .OSError, .Exception, .BaseException]
  | .PermissionError => [.PermissionError, .OSError, .Exception, .BaseException]
  | .FileNotFoundError => [.FileNotFoundError, .OSError, .Exception, .BaseException]
  | .MemoryError => [.MemoryError, .Exception, .BaseException]
  | .RuntimeError => [.RuntimeError, .Exception, .BaseException]
  | .RecursionError => [.RecursionError, .RuntimeError, .Exception, .BaseException]
  | .ValueError => [.ValueError, .Exception, .BaseException]
  | .UnicodeError => [.UnicodeError, .ValueError, .Exception, .BaseException]
  | .UnicodeDecodeError =>
      [.UnicodeDecodeError, .UnicodeError, .ValueError, .Exception, .BaseException]
  | .UnicodeEncodeError =>
      [.UnicodeEncodeError, .UnicodeError, .ValueError, .Exception, .BaseException]
  | .LookupError => [.LookupError, .Exception, .BaseException]
  | .KeyError => [.KeyError, .LookupError, .Exception, .BaseException]
  | .TypeError => [.TypeError, .Exception, .BaseException]
  | .StopIteration => [.StopIteration, .Exception, .BaseException]

/-- An exception value, characterised by the set of embedded built-in classes
it is an instance of.  For a plain built-in exception this is the MRO of its
class (`PyExc.ofType`); a user-defined multiple-inheritance class yields the
union of its bases' MROs. -/
structure PyExc where
  instanceOf : List PyType
deriving DecidableEq

/-- `isinstance(exc, t)` for an embedded exception value. -/
def isinstance (exc : PyExc) (t : PyType) : Bool :=
  exc.instanceOf.contains t

/-- The exception value of a plain built-in exception of class `t`. -/
def PyExc.ofType (t : PyType) : PyExc :=
  ⟨t.mro⟩

/-- `socket.timeout` is an alias of the built-in `TimeoutError` on
Python ≥ 3.10 (the version range this package targets). -/
def socket_timeout : PyType := .TimeoutError

/-- `_EXCEPTION_CODE_MAP` (core.py): the ordered rule table mapping exception
classes to agent error codes, in source order. -/
def _EXCEPTION_CODE_MAP : List (PyType × Int) := [
  (.TimeoutError, 103),
  (.ConnectionError, 404),
  (.ConnectionRefusedError, 404),
  (.ConnectionResetError, 404),
  (socket_timeout, 103),
  (.URLError, 404),
  (.PermissionError, 302),
  (.FileNotFoundError, 602),
  (.MemoryError, 401),
  (.RecursionError, 501),
  (.UnicodeDecodeError, 605),
  (.UnicodeEncodeError, 605),
  (.ValueError, 601),
  (.KeyError, 602),
  (.TypeError, 203),
  (.OSError, 405)]

/-- The loop body of `classify_exception`: walk the rule table front-to-back
and resolve the first matching rule's code via `lookup_error`; past the end
fall back to `lookup_error 601`.  A lookup failure would propagate. -/
def classifyLoop (exc : PyExc) : List (PyType × Int) →
    Except UnknownErrorCode AgentError
  | [] => lookup_error 601
  | (t, code) :: rest =>
      if isinstance exc t then lookup_error code else classifyLoop exc rest

/-- `classify_exception` (core.py): map an exception value to the closest
`AgentError` by walking `_EXCEPTION_CODE_MAP`, falling back to code 601. -/
def classify_exception (exc : PyExc) : Except UnknownErrorCode AgentError :=
  classifyLoop exc _EXCEPTION_CODE_MAP

/-! ## core.py — wrapper exception and response helper -/

/-- `AgentErrorException` (core.py): a raise-able exception wrapping an
`AgentError` with optional details; `message` is the string the exception
renders as (`str(exc)`). -/
structure AgentErrorException where
  error : AgentError
  details : Option String
  message : String
deriving DecidableEq

/-- The `AgentErrorException` constructor (core.py `__init__`): stores the
definition and details and builds the display message.  The details suffix is
guarded by Python truthiness (`if details:`), so both `None` and the empty
string leave the message unsuffixed. -/
def AgentErrorException.make (error : AgentError)
    (details : Option String := none) : AgentErrorException :=
  let base := "[" ++ toString error.code ++ "] " ++ error.name ++ ": "
    ++ error.description
  let message := match details with
    | some d => if d = "" then base else base ++ " — " ++ d
    | none => base
  ⟨error, details, message⟩

/-- A UTC wall-clock instant (the value of `datetime.now(tz=timezone.utc)`),
passed explicitly to the response builder. -/
structure UTCDateTime where
  year : Nat
  month : Nat
  day : Nat
  hour : Nat
  minute : Nat
  second : Nat
  microsecond : Nat

/-- Left-pad the decimal rendering of `n` with zeros to width `w`
(Python's `%0*d`). -/
def zfill (w : Nat) (n : Nat) : String :=
  let s := toString n
  String.mk (List.replicate (w - s.length) '0') ++ s

/-- The date part `YYYY-MM-DD` of `datetime.isoformat`. -/
def UTCDateTime.dateStr (t : UTCDateTime) : String :=
  zfill 4 t.year ++ "-" ++ zfill 2 t.month ++ "-" ++ zfill 2 t.day

/-- The time-and-offset part `HH:MM:SS[.ffffff]+00:00` of
`datetime.isoformat` for a timezone-aware UTC datetime (the fractional part
is omitted when the microsecond field is zero). -/
def UTCDateTime.timeStr (t : UTCDateTime) : String :=
  zfill 2 t.hour ++ ":" ++ zfill 2 t.minute ++ ":" ++ zfill 2 t.second
    ++ (if t.microsecond = 0 then "" else "." ++ zfill 6 t.microsecond)
    ++ "+00:00"

/-- `datetime.isoformat()` for a timezone-aware UTC datetime: the date part,
the `T` separator, then the time-and-offset part. -/
def UTCDateTime.isoformat (t : UTCDateTime) : String :=
  t.dateStr ++ "T" ++ t.timeStr

/-- The inner record of `create_error_response`. -/
structure ErrorResponseBody where
  code : Int
  name : String
  category : String
  description : String
  severity : String
  retryable : Bool
  details : Option String
  timestamp : String
deriving DecidableEq

/-- The record returned by `create_error_response`: a single `error` key. -/
structure ErrorResponse where
  error : ErrorResponseBody
deriving DecidableEq

/-- `create_error_response` (core.py): the standardised JSON-serialisable
error response; `now` is the wall-clock instant read by
`datetime.now(tz=timezone.utc)` at construction time. -/
def create_error_response (error : AgentError) (details : Option String)
    (now : UTCDateTime) : ErrorResponse :=
  ⟨⟨error.code, error.name, error.category.value, error.description,
    error.severity, error.retryable, details, now.isoformat⟩⟩

/-! ## Spec-side definitions

Definitions written from the spec's words, for comparison with the
source-side definitions above. -/

/-- The canonical rule-kind order of spec section 4.2, step 2, written from
the spec's words: timeout → connection (generic) → connection-refused →
connection-reset → low-level socket timeout → url/network → permission →
file-not-found → out-of-memory → recursion-limit → unicode-decode →
unicode-encode → generic-value → missing-key → generic-type →
generic-os/io. -/
def canonicalKindOrder : List PyType :=
  [.TimeoutError, .ConnectionError, .ConnectionRefusedError,
   .ConnectionResetError, socket_timeout, .URLError, .PermissionError,
   .FileNotFoundError, .MemoryError, .RecursionError, .UnicodeDecodeError,
   .UnicodeEncodeError, .ValueError, .KeyError, .TypeError, .OSError]

/-- Written from spec section 4.2, steps 1-3: walk the ordered table
front-to-back and return the code of the first rule whose kind test succeeds
against the exception value. -/
def firstMatchCode (table : List (PyType × Int)) (exc : PyExc) : Option Int :=
  (table.find? (fun p => isinstance exc p.1)).map Prod.snd

/-- The numeric-band category of spec section 3 (1xx model, 2xx tool,
3xx security, 4xx resource, 5xx orchestration, 6xx data). -/
def bandCategory (code : Int) : Option ErrorCategory :=
  if 100 ≤ code ∧ code ≤ 199 then some .model
  else if 200 ≤ code ∧ code ≤ 299 then some .tool
  else if 300 ≤ code ∧ code ≤ 399 then some .security
  else if 400 ≤ code ∧ code ≤ 499 then some .resource
  else if 500 ≤ code ∧ code ≤ 599 then some .orchestration
  else if 600 ≤ code ∧ code ≤ 699 then some .data
  else none

/-! ## Helper lemmas -/

theorem dictGet_dictInsert_self (m : List (Int × AgentError)) (k : Int)
    (v : AgentError) : dictGet (dictInsert m k v) k = some v := by
  induction m with
  | nil => simp [dictInsert, dictGet]
  | cons p rest ih =>
    obtain ⟨k', v'⟩ := p
    by_cases h : k' = k
    · simp [dictInsert, dictGet, h]
    · simp [dictInsert, dictGet, h, ih]

theorem dictGet_eq_none_of_not_mem (m : List (Int × AgentError)) (k : Int)
    (h : k ∉ m.map Prod.fst) : dictGet m k = none := by
  induction m with
  | nil => rfl
  | cons p rest ih =>
    obtain ⟨k', v'⟩ := p
    simp only [List.map_cons, List.mem_cons] at h
    push_neg at h
    have hne : ¬ k' = k := fun hh => h.1 hh.symm
    simp [dictGet, hne, ih h.2]

theorem dictGet_mem (m : List (Int × AgentError)) (k : Int) (v : AgentError)
    (h : dictGet m k = some v) : (k, v) ∈ m := by
  induction m with
  | nil => simp [dictGet] at h
  | cons p rest ih =>
    obtain ⟨k', v'⟩ := p
    by_cases hk : k' = k
    · subst hk
      simp [dictGet] at h
      simp [h]
    · simp [dictGet, hk] at h
      exact List.mem_cons_of_mem _ (ih h)

theorem dictGet_isSome_of_mem_keys (m : List (Int × AgentError)) (k : Int)
    (h : k ∈ m.map Prod.fst) : ∃ v, dictGet m k = some v := by
  induction m with
  | nil => simp at h
  | cons p rest ih =>
    obtain ⟨k', v'⟩ := p
    by_cases hk : k' = k
    · exact ⟨v', by simp [dictGet, hk]⟩
    · simp only [List.map_cons, List.mem_cons] at h
      rcases h with h | h
      · exact absurd h.symm hk
      · obtain ⟨v, hv⟩ := ih h
        exact ⟨v, by simp [dictGet, hk, hv]⟩

theorem classifyLoop_eq_firstMatch (exc : PyExc) (l : List (PyType × Int)) :
    classifyLoop exc l = lookup_error ((firstMatchCode l exc).getD 601) := by
  induction l with
  | nil => simp [classifyLoop, firstMatchCode]
  | cons p rest ih =>
    obtain ⟨t, code⟩ := p
    by_cases h : isinstance exc t
    · simp [classifyLoop, firstMatchCode, List.find?_cons, h]
    · simp only [classifyLoop, h, if_neg, Bool.false_eq_true, reduceIte]
      rw [ih]
      simp [firstMatchCode, List.find?_cons, h]

theorem classifyLoop_ok (exc : PyExc) (l : List (PyType × Int))
    (h : ∀ p ∈ l, ∃ e, lookup_error p.2 = .ok e)
    (h601 : ∃ e, lookup_error 601 = .ok e) :
    ∃ e, classifyLoop exc l = .ok e := by
  induction l with
  | nil => exact h601
  | cons p rest ih =>
    obtain ⟨t, code⟩ := p
    by_cases hm : isinstance exc t
    · simpa [classifyLoop, hm] using h (t, code) (by simp)
    · simpa [classifyLoop, hm] using
        ih (fun q hq => h q (List.mem_cons_of_mem _ hq))

theorem classifyLoop_no_match (exc : PyExc) (l : List (PyType × Int))
    (h : ∀ p ∈ l, isinstance exc p.1 = false) :
    classifyLoop exc l = lookup_error 601 := by
  induction l with
  | nil => rfl
  | cons p rest ih =>
    obtain ⟨t, code⟩ := p
    have ht : isinstance exc t = false := h (t, code) (by simp)
    simp only [classifyLoop, ht, Bool.false_eq_true, reduceIte]
    exact ih (fun q hq => h q (List.mem_cons_of_mem _ hq))

instance : IsTotal AgentError byCodeLE :=
  ⟨fun a b => Int.le_total a.code b.code⟩

instance : IsTrans AgentError byCodeLE :=
  ⟨fun _ _ _ hab hbc => Int.le_trans hab hbc⟩

/-- Registry entries of the built-in registry are keyed by their own code. -/
theorem registry_keys_match_codes :
    ∀ p ∈ ERROR_REGISTRY, p.2.code = p.1 := by
  decide

/-- The codes of the built-in registry's values have no duplicates. -/
theorem registry_codes_nodup :
    ((dictValues ERROR_REGISTRY).map AgentError.code).Nodup := by
  decide

theorem except_ok_of_isOk {ε α : Type} (x : Except ε α) (h : x.isOk = true) :
    ∃ a, x = .ok a := by
  cases x with
  | ok a => exact ⟨a, rfl⟩
  | error e => simp [Except.isOk, Except.toBool] at h

/-! ## Claims -/

/-- **C1**: the classifier's rule table is exactly the canonical ordered list
of sixteen exception kinds; for every exception value the classifier walks
the table front-to-back and returns the definition of the first rule whose
instance-of test succeeds; in particular an exception value that is an
instance of both the connection kind and the timeout kind resolves to the
earlier rule (timeout, code 103), not the most specific matching type. -/
theorem classifier_table_canonical_first_match_wins :
    _EXCEPTION_CODE_MAP.map Prod.fst = canonicalKindOrder ∧
    (∀ exc : PyExc,
      classify_exception exc =
        lookup_error ((firstMatchCode _EXCEPTION_CODE_MAP exc).getD 601)) ∧
    (∀ exc : PyExc, isinstance exc .ConnectionError = true →
      isinstance exc .TimeoutError = true →
      classify_exception exc = lookup_error 103 ∧
        (classify_exception exc).toOption.map AgentError.code = some 103) := by
  refine ⟨by decide, fun exc => classifyLoop_eq_firstMatch exc _,
    fun exc hconn htime => ?_⟩
  have h : classify_exception exc = lookup_error 103 := by
    simp [classify_exception, _EXCEPTION_CODE_MAP, classifyLoop, htime]
  refine ⟨h, ?_⟩
  rw [h]
  decide

/-- Witness for C1 at a user-defined exception class inheriting both
`ConnectionError` and `TimeoutError`: the earlier timeout rule wins. -/
theorem classifier_table_canonical_first_match_wins_witness :
    isinstance (PyExc.mk (PyType.mro .ConnectionError ++ PyType.mro .TimeoutError))
        .ConnectionError = true ∧
    isinstance (PyExc.mk (PyType.mro .ConnectionError ++ PyType.mro .TimeoutError))
        .TimeoutError = true ∧
    (classify_exception
        (PyExc.mk (PyType.mro .ConnectionError ++ PyType.mro .TimeoutError)) =
      lookup_error 103 ∧
      (classify_exception
          (PyExc.mk (PyType.mro .ConnectionError ++ PyType.mro .TimeoutError))).toOption.map
        AgentError.code = some 103) :=
  ⟨by decide, by decide,
    classifier_table_canonical_first_match_wins.2.2
      (PyExc.mk (PyType.mro .ConnectionError ++ PyType.mro .TimeoutError))
      (by decide) (by decide)⟩

/-- **C2**: classification is total and never raises: every exception value
classifies to some definition; a timeout-kind exception yields code 103, a
permission-kind 302, a generic value-kind 601, a file-missing-kind 602, an
out-of-memory-kind 401, a recursion-limit-kind 501; and when no rule matches
the fixed fallback definition with code 601 is returned rather than an
error. -/
theorem classification_total_never_raises :
    (∀ exc : PyExc, ∃ e, classify_exception exc = .ok e) ∧
    (classify_exception (PyExc.ofType .TimeoutError)).toOption.map
        AgentError.code = some 103 ∧
    (classify_exception (PyExc.ofType .PermissionError)).toOption.map
        AgentError.code = some 302 ∧
    (classify_exception (PyExc.ofType .ValueError)).toOption.map
        AgentError.code = some 601 ∧
    (classify_exception (PyExc.ofType .FileNotFoundError)).toOption.map
        AgentError.code = some 602 ∧
    (classify_exception (PyExc.ofType .MemoryError)).toOption.map
        AgentError.code = some 401 ∧
    (classify_exception (PyExc.ofType .RecursionError)).toOption.map
        AgentError.code = some 501 ∧
    (∀ exc : PyExc, (∀ p ∈ _EXCEPTION_CODE_MAP, isinstance exc p.1 = false) →
      classify_exception exc = lookup_error 601 ∧
        (classify_exception exc).toOption.map AgentError.code = some 601) := by
  have hok : ∀ p ∈ _EXCEPTION_CODE_MAP, (lookup_error p.2).isOk = true := by
    decide
  refine ⟨fun exc => classifyLoop_ok exc _
      (fun p hp => except_ok_of_isOk _ (hok p hp)) ⟨_, rfl⟩,
    by decide, by decide, by decide, by decide, by decide, by decide,
    fun exc h => ?_⟩
  have hfall : classify_exception exc = lookup_error 601 :=
    classifyLoop_no_match exc _ h
  refine ⟨hfall, ?_⟩
  rw [hfall]
  decide

/-- Witness for C2's fallback conjunct at a `StopIteration` exception, which
matches none of the sixteen rules. -/
theorem classification_total_never_raises_witness :
    classify_exception (PyExc.ofType .StopIteration) = lookup_error 601 ∧
      (classify_exception (PyExc.ofType .StopIteration)).toOption.map
        AgentError.code = some 601 :=
  classification_total_never_raises.2.2.2.2.2.2.2
    (PyExc.ofType .StopIteration) (by decide)

/-- **C3**: for every code present in the built-in registry, lookup returns a
definition whose `code` field equals the looked-up code, and lookup raises
`UnknownErrorCode` exactly when the code is absent — in particular for every
integer ≤ 0 and for the unused positive integer 9999.  The embedded lookup
is a pure read of the registry, so it has no side effects. -/
theorem lookup_code_roundtrip_unknown_raises :
    (∀ c : Int, c ∈ dictKeys ERROR_REGISTRY →
      ∃ e, lookup_error c = .ok e ∧ e.code = c) ∧
    (∀ c : Int, c ∉ dictKeys ERROR_REGISTRY →
      ∃ m, lookup_error c = .error m) ∧
    (∀ c : Int, c ≤ 0 → c ∉ dictKeys ERROR_REGISTRY) ∧
    ((9999 : Int) ∉ dictKeys ERROR_REGISTRY) := by
  refine ⟨fun c hc => ?_, fun c hc => ?_, fun c hc => ?_, by decide⟩
  · obtain ⟨v, hv⟩ := dictGet_isSome_of_mem_keys _ c hc
    refine ⟨v, ?_, registry_keys_match_codes (c, v) (dictGet_mem _ _ _ hv)⟩
    unfold lookup_error
    rw [hv]
  · have h := dictGet_eq_none_of_not_mem _ c hc
    refine ⟨⟨"No error registered for code " ++ toString c⟩, ?_⟩
    unfold lookup_error
    rw [h]
  · intro hmem
    have hpos : ∀ k ∈ dictKeys ERROR_REGISTRY, 0 < k := by decide
    have := hpos c hmem
    omega

/-- Witness for C3 at the registered code 101, the unused code 9999 and the
non-positive code -1. -/
theorem lookup_code_roundtrip_unknown_raises_witness :
    (∃ e, lookup_error 101 = .ok e ∧ e.code = 101) ∧
    (∃ m, lookup_error 9999 = .error m) ∧
    ((-1 : Int) ∉ dictKeys ERROR_REGISTRY) :=
  ⟨lookup_code_roundtrip_unknown_raises.1 101 (by decide),
   lookup_code_roundtrip_unknown_raises.2.1 9999 (by decide),
   lookup_code_roundtrip_unknown_raises.2.2.1 (-1) (by decide)⟩

/-- **C4 counterexample**: registering codes 702 then 701 (both category
`model`) in a custom registry makes `by_category` return the definitions in
registration order `[702, 701]`, which is not sorted ascending by code — so
the claim's sortedness does not hold for every registry. -/
theorem by_category_sorted_counterexample :
    ((((ErrorRegistry.mk []).register
          ⟨702, .model, "late", "registered first", false, "low"⟩).register
        ⟨701, .model, "early", "registered second", false, "low"⟩).by_category
      .model).map AgentError.code = [702, 701] ∧
    ¬ List.Sorted byCodeLE
      ((((ErrorRegistry.mk []).register
            ⟨702, .model, "late", "registered first", false, "low"⟩).register
          ⟨701, .model, "early", "registered second", false, "low"⟩).by_category
        .model) := by
  constructor
  · decide
  · decide

/-- **C4 (amended)**: in every registry, every definition returned by
`by_category g` has category `g`, and (for a registry whose entries are keyed
by their own code, with no duplicate keys — as every registry built through
`register` is) the code sets returned for two distinct categories are
disjoint; `by_category` returns matches in registration order, which need not
be sorted; the built-in listing `errors_by_category` additionally returns its
result sorted ascending by code, with the same category-equality and
disjointness properties. -/
theorem by_category_props :
    (∀ (r : ErrorRegistry) (g : ErrorCategory),
      ∀ e ∈ r.by_category g, e.category = g) ∧
    (∀ r : ErrorRegistry, (∀ p ∈ r.errors, p.2.code = p.1) →
      (r.errors.map Prod.fst).Nodup →
      ∀ g₁ g₂ : ErrorCategory, g₁ ≠ g₂ →
      ∀ e₁ ∈ r.by_category g₁, ∀ e₂ ∈ r.by_category g₂, e₁.code ≠ e₂.code) ∧
    (∀ g : ErrorCategory, ∀ e ∈ errors_by_category g, e.category = g) ∧
    (∀ g : ErrorCategory, List.Sorted byCodeLE (errors_by_category g)) ∧
    (∀ g₁ g₂ : ErrorCategory, g₁ ≠ g₂ →
      ∀ e₁ ∈ errors_by_category g₁, ∀ e₂ ∈ errors_by_category g₂,
        e₁.code ≠ e₂.code) := by
  have hcat : ∀ (l : List AgentError) (g : ErrorCategory),
      ∀ e ∈ l.filter (fun e => e.category = g), e.category = g := by
    intro l g e he
    have := List.of_mem_filter he
    simpa using this
  have hmemval : ∀ (r : ErrorRegistry) (g : ErrorCategory),
      ∀ e ∈ r.by_category g, e ∈ dictValues r.errors :=
    fun r g e he => List.mem_of_mem_filter he
  refine ⟨fun r g => hcat _ g, fun r hwf hnd g₁ g₂ hne e₁ he₁ e₂ he₂ heq => ?_,
    fun g e he => ?_, fun g => List.sorted_insertionSort _ _,
    fun g₁ g₂ hne e₁ he₁ e₂ he₂ heq => ?_⟩
  · -- distinct categories are code-disjoint in a well-keyed registry
    obtain ⟨p₁, hp₁, hp₁e⟩ := List.mem_map.mp (hmemval r g₁ e₁ he₁)
    obtain ⟨p₂, hp₂, hp₂e⟩ := List.mem_map.mp (hmemval r g₂ e₂ he₂)
    have hk : p₁.1 = p₂.1 := by
      rw [← hwf p₁ hp₁, ← hwf p₂ hp₂, hp₁e, hp₂e, heq]
    have hp : p₁ = p₂ := List.inj_on_of_nodup_map hnd hp₁ hp₂ hk
    have he : e₁ = e₂ := by rw [← hp₁e, ← hp₂e, hp]
    have hc₁ := hcat _ g₁ e₁ he₁
    have hc₂ := hcat _ g₂ e₂ he₂
    exact hne (by rw [← hc₁, he, hc₂])
  · -- built-in: category equality through the sort's permutation
    exact hcat _ g e ((List.perm_insertionSort byCodeLE _).mem_iff.mp he)
  · -- built-in: distinct categories are code-disjoint
    have he₁' := (List.perm_insertionSort byCodeLE _).mem_iff.mp he₁
    have he₂' := (List.perm_insertionSort byCodeLE _).mem_iff.mp he₂
    have hv₁ := List.mem_of_mem_filter he₁'
    have hv₂ := List.mem_of_mem_filter he₂'
    have he : e₁ = e₂ :=
      List.inj_on_of_nodup_map registry_codes_nodup hv₁ hv₂ heq
    have hc₁ : e₁.category = g₁ := by
      have := List.of_mem_filter he₁'
      simpa using this
    have hc₂ : e₂.category = g₂ := by
      have := List.of_mem_filter he₂'
      simpa using this
    exact hne (by rw [← hc₁, he, hc₂])

/-- Witness for C4's amended theorem at concrete registries: a custom
registry holding codes 701 (model) and 702 (tool), and the built-in listing
at the model and tool categories. -/
theorem by_category_props_witness :
    (AgentError.mk 701 .model "m" "m" false "low").category = .model ∧
    ((701 : Int) ≠ 702) ∧
    (AgentError.mk 101 .model "model_not_found"
        "The requested model identifier does not exist or is unavailable."
        false "high").category = .model ∧
    ((101 : Int) ≠ 201) :=
  ⟨by_category_props.1
      ((ErrorRegistry.mk []).register ⟨701, .model, "m", "m", false, "low"⟩)
      .model ⟨701, .model, "m", "m", false, "low"⟩ (by decide),
   by_category_props.2.1
      (((ErrorRegistry.mk []).register
          ⟨701, .model, "m", "m", false, "low"⟩).register
        ⟨702, .tool, "t", "t", false, "low"⟩)
      (by decide) (by decide) .model .tool (by decide)
      ⟨701, .model, "m", "m", false, "low"⟩ (by decide)
      ⟨702, .tool, "t", "t", false, "low"⟩ (by decide),
   by_category_props.2.2.1 .model
      ⟨101, .model, "model_not_found",
        "The requested model identifier does not exist or is unavailable.",
        false, "high"⟩ (by decide),
   by_category_props.2.2.2.2 .model .tool (by decide)
      ⟨101, .model, "model_not_found",
        "The requested model identifier does not exist or is unavailable.",
        false, "high"⟩ (by decide)
      ⟨201, .tool, "tool_not_found",
        "The agent called a tool that is not registered or available.",
        false, "high"⟩ (by decide)⟩

/-- **C5**: in any registry, registering a definition under an existing code
replaces the prior definition without raising: after registering `d1` then
`d2` with the same code, lookup of that code returns `d2` (last-write-wins).
`get` (the absent-marker probe) returns `none` on an unregistered code and
never raises (it is total by construction), and on the built-in registry the
optional probe agrees with `lookup_error` everywhere. -/
theorem register_last_write_wins :
    (∀ (r : ErrorRegistry) (d1 d2 : AgentError), d2.code = d1.code →
      ((r.register d1).register d2).get d1.code = some d2) ∧
    (∀ (r : ErrorRegistry) (c : Int), c ∉ r.errors.map Prod.fst →
      r.get c = none) ∧
    (∀ c : Int, (lookup_error c).toOption = dictGet ERROR_REGISTRY c) := by
  refine ⟨fun r d1 d2 hcode => ?_, fun r c hc => dictGet_eq_none_of_not_mem _ c hc,
    fun c => ?_⟩
  · show dictGet (dictInsert (dictInsert r.errors d1.code d1) d2.code d2)
      d1.code = some d2
    rw [hcode]
    exact dictGet_dictInsert_self _ _ _
  · unfold lookup_error
    cases h : dictGet ERROR_REGISTRY c <;> rfl

/-- Witness for C5: registering code 777 twice in an initially empty custom
registry returns the second definition; probing the unregistered code 778
returns `none`; the probe agrees with lookup at code 101. -/
theorem register_last_write_wins_witness :
    (((ErrorRegistry.mk []).register
          ⟨777, .model, "first", "first", false, "low"⟩).register
        ⟨777, .tool, "second", "second", true, "high"⟩).get 777 =
      some ⟨777, .tool, "second", "second", true, "high"⟩ ∧
    (ErrorRegistry.mk []).get 778 = none ∧
    (lookup_error 101).toOption = dictGet ERROR_REGISTRY 101 :=
  ⟨register_last_write_wins.1 (ErrorRegistry.mk [])
      ⟨777, .model, "first", "first", false, "low"⟩
      ⟨777, .tool, "second", "second", true, "high"⟩ (by decide),
   register_last_write_wins.2.1 (ErrorRegistry.mk []) 778 (by decide),
   register_last_write_wins.2.2 101⟩

/-- **C6** (evaluation of the code at the claim's failing point): the
built-in registry holds **31** definitions, not the 30 the claim (and the
source's own comments) state: its keys are the 31 distinct codes below,
spanning the six numeric bands with every key in the band of its value's
category.  The rest of the claim holds: every security-category definition is
non-retryable, code 103 (`model_timeout`) is retryable, and code 101
(`model_not_found`) is not retryable. -/
theorem builtin_registry_holds_31_not_30 :
    ERROR_REGISTRY.length = 31 ∧
    dictKeys ERROR_REGISTRY =
      [101, 102, 103, 104, 105, 201, 202, 203, 204, 205,
       301, 302, 303, 304, 305, 401, 402, 403, 404, 501, 502, 503, 504,
       601, 602, 603, 604, 405, 406, 605, 606] ∧
    (dictKeys ERROR_REGISTRY).Nodup ∧
    ERROR_REGISTRY.all
      (fun p => bandCategory p.2.code == some p.2.category
        && p.2.code == p.1) = true ∧
    ((dictValues ERROR_REGISTRY).filter
        (fun e => e.category = .security)).map
      (fun e => (e.code, e.retryable)) =
      [(301, false), (302, false), (303, false), (304, false), (305, false)] ∧
    (dictGet ERROR_REGISTRY 103).map (fun e => (e.name, e.retryable)) =
      some ("model_timeout", true) ∧
    (dictGet ERROR_REGISTRY 101).map (fun e => (e.name, e.retryable)) =
      some ("model_not_found", false) := by
  refine ⟨by decide, by decide, by decide, by decide, by decide, by decide,
    by decide⟩

/-- **C7**: definition construction round-trips and validates: with a
positive code and a severity in the closed set, every field reads back
exactly as supplied; with a non-positive code or an unknown severity,
construction fails in all cases and no fixed-up value is produced. -/
theorem model_validate_roundtrip :
    ∀ (code : Int) (category : ErrorCategory) (name description : String)
      (retryable : Bool) (severity : String),
    (0 < code → severity ∈ allowedSeverities →
      AgentError.model_validate code category name description retryable
          severity =
        .ok ⟨code, category, name, description, retryable, severity⟩) ∧
    (code ≤ 0 ∨ severity ∉ allowedSeverities →
      ∃ m, AgentError.model_validate code category name description retryable
          severity = .error m) := by
  intro code category name description retryable severity
  constructor
  · intro hpos hsev
    unfold AgentError.model_validate
    rw [if_neg (by omega), if_neg (by simp [hsev])]
  · intro hbad
    unfold AgentError.model_validate
    by_cases hc : code ≤ 0
    · exact ⟨_, by rw [if_pos hc]⟩
    · have hsev : ¬ severity ∈ allowedSeverities := hbad.resolve_left hc
      exact ⟨_, by rw [if_neg hc, if_pos hsev]⟩

/-- Witness for C7: round-trip at code 777 / severity "high", rejection at
code 0 and at the unknown severity "ultra". -/
theorem model_validate_roundtrip_witness :
    AgentError.model_validate 777 .tool "n" "d" true "high" =
      .ok ⟨777, .tool, "n", "d", true, "high"⟩ ∧
    (∃ m, AgentError.model_validate 0 .tool "n" "d" true "high" = .error m) ∧
    (∃ m, AgentError.model_validate 777 .tool "n" "d" true "ultra" =
      .error m) :=
  ⟨(model_validate_roundtrip 777 .tool "n" "d" true "high").1
      (by decide) (by decide),
   (model_validate_roundtrip 0 .tool "n" "d" true "high").2
      (Or.inl (by decide)),
   (model_validate_roundtrip 777 .tool "n" "d" true "ultra").2
      (Or.inr (by decide))⟩

/-- **C8**: for every definition, optional details string and construction
instant, the response record has the exact shape
`{error: {code, name, category, description, severity, retryable, details,
timestamp}}` (the `ErrorResponse`/`ErrorResponseBody` structures), its first
six fields mirror the definition's fields, `details` equals the supplied
string (e.g. `some "x"`) and is the absent marker when omitted, and the
timestamp is the ISO-8601 rendering of the construction instant, which always
contains the date/time separator `T`. -/
theorem create_error_response_shape :
    ∀ (e : AgentError) (details : Option String) (now : UTCDateTime),
    (create_error_response e details now).error.code = e.code ∧
    (create_error_response e details now).error.name = e.name ∧
    (create_error_response e details now).error.category = e.category.value ∧
    (create_error_response e details now).error.description = e.description ∧
    (create_error_response e details now).error.severity = e.severity ∧
    (create_error_response e details now).error.retryable = e.retryable ∧
    (create_error_response e (some "x") now).error.details = some "x" ∧
    (create_error_response e details now).error.details = details ∧
    (create_error_response e none now).error.details = none ∧
    (create_error_response e details now).error.timestamp = now.isoformat ∧
    'T' ∈ (create_error_response e details now).error.timestamp.data := by
  intro e details now
  refine ⟨rfl, rfl, rfl, rfl, rfl, rfl, rfl, rfl, rfl, rfl, ?_⟩
  show 'T' ∈ (now.isoformat).data
  simp [UTCDateTime.isoformat]

/-- **C9 counterexample**: with details supplied as the empty string, the
wrapped error's fields carry `some ""` (details is present), yet the display
string is unsuffixed — Python's `if details:` treats the present-but-empty
string as falsy — contradicting the claim that the display string is suffixed
with " — <details>" whenever details is present. -/
theorem wrapped_error_message_counterexample :
    (AgentErrorException.make ⟨701, .model, "boom", "oops", false, "low"⟩
        (some "")).details = some "" ∧
    (AgentErrorException.make ⟨701, .model, "boom", "oops", false, "low"⟩
        (some "")).message = "[701] boom: oops" ∧
    "[701] boom: oops" ≠ "[701] boom: oops — " :=
  ⟨rfl, by decide, by decide⟩

/-- **C9 (amended)**: the wrapped error carries the definition and details
unchanged in its fields, and its display string is exactly
`[<code>] <name>: <description>`, suffixed with `" — <details>"` when details
is present **and non-empty**, and unsuffixed when details is absent or is the
empty string. -/
theorem wrapped_error_carries_and_renders :
    ∀ (e : AgentError) (details : Option String),
    (AgentErrorException.make e details).error = e ∧
    (AgentErrorException.make e details).details = details ∧
    (AgentErrorException.make e none).message =
      "[" ++ toString e.code ++ "] " ++ e.name ++ ": " ++ e.description ∧
    (∀ d : String, d ≠ "" →
      (AgentErrorException.make e (some d)).message =
        "[" ++ toString e.code ++ "] " ++ e.name ++ ": " ++ e.description
          ++ " — " ++ d) ∧
    (AgentErrorException.make e (some "")).message =
      "[" ++ toString e.code ++ "] " ++ e.name ++ ": " ++ e.description := by
  intro e details
  refine ⟨rfl, rfl, rfl, fun d hd => ?_, rfl⟩
  simp [AgentErrorException.make, hd]

/-- Witness for C9's amended theorem at a concrete definition with the
non-empty details string "ctx". -/
theorem wrapped_error_carries_and_renders_witness :
    (AgentErrorException.make ⟨701, .model, "boom", "oops", false, "low"⟩
        (some "ctx")).message =
      "[" ++ toString (701 : Int) ++ "] " ++ "boom" ++ ": " ++ "oops"
        ++ " — " ++ "ctx" :=
  (wrapped_error_carries_and_renders
      ⟨701, .model, "boom", "oops", false, "low"⟩ (some "ctx")).2.2.2.1
    "ctx" (by decide)

/-- **C10** (implicit): the classifier's tail rules cross category bands —
an exception of exact type `TypeError` classifies to code 203, a
tool-category definition; exact `KeyError` classifies to 602, the same code
as the file-not-found rule; exact `OSError` (matching none of the earlier
rules) classifies to 405, a resource-category definition; and every code of
the rule table is a key of the built-in registry, so the lookup inside
classification never raises. -/
theorem classifier_tail_rules_cross_bands :
    (classify_exception (PyExc.ofType .TypeError)).toOption.map
        (fun e => (e.code, e.category)) = some (203, .tool) ∧
    (classify_exception (PyExc.ofType .KeyError)).toOption.map
        AgentError.code = some 602 ∧
    (classify_exception (PyExc.ofType .FileNotFoundError)).toOption.map
        AgentError.code = some 602 ∧
    (classify_exception (PyExc.ofType .OSError)).toOption.map
        (fun e => (e.code, e.category)) = some (405, .resource) ∧
    _EXCEPTION_CODE_MAP.all
      (fun p => (dictGet ERROR_REGISTRY p.2).isSome) = true ∧
    _EXCEPTION_CODE_MAP.all (fun p => (lookup_error p.2).isOk) = true :=
  ⟨by decide, by decide, by decide, by decide, by decide, by decide⟩

end AumaiErrorTaxonomy
